import Mathlib

/-!
# Viewport demos of `OpenGLStack/code/001`

A shallow embedding of the three tutorial programs
`advanced_viewport_demo.cpp`, `viewport_demo.cpp` and `main.cpp` (with
`shader.h`), and the properties of the keyboard-driven viewport state, of the
NDC-to-screen arithmetic and of the start-up sequence.

Conventions of the embedding.

* A C++ `int` is a Lean `Int`.  Signed overflow and an out-of-range
  `double`-to-`int` conversion are undefined in C++; what is stored in that
  case is a parameter (`IntSem`), so every theorem that quantifies over the
  `IntSem` holds for wrap-around, for saturation and for unbounded integers
  alike.  In range, every operation is exact.
* The external windowing / graphics library is an environment: the status
  results it reports during start-up and the events it delivers per frame.
* Observable calls (console output, `glViewport`, `glfwTerminate`, one drawn
  frame) are collected in a trace of `Effect`s, in program order.
-/

/-! ## Machine integers -/

/-- Smallest value of a 32-bit `int`. -/
def INT_MIN : Int := -2147483648

/-- Largest value of a 32-bit `int`. -/
def INT_MAX : Int := 2147483647

/-- Whether a mathematical integer is representable as a 32-bit `int`. -/
def inIntRange (v : Int) : Prop := INT_MIN ≤ v ∧ v ≤ INT_MAX

instance (v : Int) : Decidable (inIntRange v) := by
  unfold inIntRange; infer_instance

/-- What the platform stores where C++ leaves the result undefined:
`arith` for an `int` addition or subtraction whose result leaves the `int`
range, `conv` for a `double` beyond the `int` range converted by `(int)`. -/
structure IntSem where
  arith : Int → Int
  conv : Int → Int

/-- Two's-complement wrap-around of a mathematical integer to 32 bits. -/
def wrapInt32 (v : Int) : Int := (v + 2147483648) % 4294967296 - 2147483648

/-- Wrap-around on overflow, for arithmetic and for conversions. -/
def wrapSem : IntSem := { arith := wrapInt32, conv := wrapInt32 }

/-- Unbounded integers: nothing ever overflows. -/
def unboundedSem : IntSem := { arith := fun v => v, conv := fun v => v }

/-- The `int` holding the mathematical result `v`: `v` itself when it is
representable, the platform's choice `ovf v` otherwise. -/
def storeInt (ovf : Int → Int) (v : Int) : Int :=
  if inIntRange v then v else ovf v

/-- C++ `a += b` / `a + b` on `int`. -/
def intAdd (sem : IntSem) (a b : Int) : Int := storeInt sem.arith (a + b)

/-- C++ `a -= b` / `a - b` on `int`. -/
def intSub (sem : IntSem) (a b : Int) : Int := storeInt sem.arith (a - b)

/-- C++ `(int)d` for a `double` d: truncation toward zero. -/
def castInt (sem : IntSem) (d : ℚ) : Int :=
  storeInt sem.conv (Int.tdiv d.num (d.den : Int))

/-! ## GLFW constants (from `GLFW/glfw3.h`) -/

def GLFW_RELEASE : Int := 0
def GLFW_PRESS : Int := 1
def GLFW_REPEAT : Int := 2

def GLFW_KEY_A : Int := 65
def GLFW_KEY_C : Int := 67
def GLFW_KEY_D : Int := 68
def GLFW_KEY_E : Int := 69
def GLFW_KEY_I : Int := 73
def GLFW_KEY_Q : Int := 81
def GLFW_KEY_R : Int := 82
def GLFW_KEY_S : Int := 83
def GLFW_KEY_T : Int := 84
def GLFW_KEY_W : Int := 87
def GLFW_KEY_Z : Int := 90
def GLFW_KEY_ESCAPE : Int := 256

/-! ## Observable effects and the environment -/

/-- One observable call of a program. -/
inductive Effect where
  /-- One `std::cout << ... ;` statement, with the text it writes. -/
  | print (text : String)
  /-- One `std::cerr << ... ;` statement. -/
  | printErr (text : String)
  /-- The call `glViewport(x, y, width, height)`. -/
  | glViewport (x y width height : Int)
  /-- The call `glfwTerminate()`. -/
  | glfwTerminate
  /-- The drawing part of one iteration of a render loop, from
  `glClearColor` to `glfwSwapBuffers`. -/
  | drawFrame
  deriving DecidableEq

/-- The rectangles of the `glViewport` calls of a trace, in order. -/
def viewportCalls : List Effect → List (Int × Int × Int × Int)
  | [] => []
  | Effect.glViewport x y w h :: es => (x, y, w, h) :: viewportCalls es
  | _ :: es => viewportCalls es

/-- The console texts (`std::cout` and `std::cerr`) of a trace, in order. -/
def consoleOutput : List Effect → List String
  | [] => []
  | Effect.print t :: es => t :: consoleOutput es
  | Effect.printErr t :: es => t :: consoleOutput es
  | _ :: es => consoleOutput es

/-- An event the window system delivers inside `glfwPollEvents`. -/
inductive WindowEvent where
  /-- A key event `(key, action)`; scancode and modifiers are never read. -/
  | key (key action : Int)
  /-- The framebuffer was resized to `width` by `height`. -/
  | framebufferSize (width height : Int)
  /-- The user asked to close the window. -/
  | close
  deriving DecidableEq

/-- What the library reports during one iteration of a render loop. -/
structure Frame where
  /-- Result of `glfwGetKey(window, GLFW_KEY_ESCAPE) == GLFW_PRESS`. -/
  escapeDown : Bool
  /-- The events dispatched by `glfwPollEvents`. -/
  events : List WindowEvent
  deriving DecidableEq

/-- The status results of the external library, and the frames it delivers
until the script ends. -/
structure Env where
  /-- `glfwCreateWindow` returned a window (not `NULL`). -/
  windowCreated : Bool
  /-- `gladLoadGLLoader` / `gladLoadGL` succeeded. -/
  gladLoaded : Bool
  /-- `GL_COMPILE_STATUS` of the vertex shader. -/
  vertexCompiled : Bool
  /-- `GL_COMPILE_STATUS` of the fragment shader. -/
  fragmentCompiled : Bool
  /-- `GL_LINK_STATUS` of the program. -/
  programLinked : Bool
  vertexLog : String
  fragmentLog : String
  linkLog : String
  frames : List Frame
  deriving DecidableEq

/-- How a run of `main` ends: `exitCode = some c` when `main` returned `c`,
`none` when the frame script ended with the window still open;
`enteredLoop` records whether control reached the render loop. -/
structure MainResult where
  exitCode : Option Int
  enteredLoop : Bool
  trace : List Effect
  deriving DecidableEq

/-! ## `advanced_viewport_demo.cpp` -/

def SCR_WIDTH : Int := 800
def SCR_HEIGHT : Int := 600

/-- The globals `viewport_x`, `viewport_y`, `viewport_width`,
`viewport_height`. -/
structure ViewportState where
  viewport_x : Int
  viewport_y : Int
  viewport_width : Int
  viewport_height : Int
  deriving DecidableEq

/-- The initialisers of the four globals (lines 34 to 37). -/
def initialViewport : ViewportState :=
  { viewport_x := 100, viewport_y := 100, viewport_width := 600, viewport_height := 400 }

/-- The value of the expression `(n + 1) * (size/2.0) + offset` of the info
action, before the `(int)` cast; `n` is the NDC literal (-1 or 1).  `n + 1` is
`int` arithmetic, the halving, product and sum are `double` arithmetic.  For
`int` operands and these literals every intermediate value is a half-integer
below 2^53, so the `double` computation is exact and is the rational one. -/
def ndcToScreenReal (n size offset : Int) : ℚ :=
  ((n + 1 : Int) : ℚ) * ((size : ℚ) / 2) + (offset : ℚ)

/-- The expression `(int)((n + 1) * (size/2.0) + offset)` of the info action
(lines 257, 258, 261 and 262). -/
def ndcToScreen (sem : IntSem) (n size offset : Int) : Int :=
  castInt sem (ndcToScreenReal n size offset)

/-- The same mapping with integer halving, `(n + 1) * (size / 2) + offset`
with C++ `int` division, as the formula is printed by `viewport_demo.cpp`. -/
def ndcToScreenIntHalf (n size offset : Int) : Int :=
  (n + 1) * Int.tdiv size 2 + offset

/-- The text `glViewport(x, y, w, h)` as the programs print it. -/
def showViewport (s : ViewportState) : String :=
  "glViewport(" ++ toString s.viewport_x ++ ", " ++ toString s.viewport_y
    ++ ", " ++ toString s.viewport_width ++ ", " ++ toString s.viewport_height ++ ")"

/-- The output of `case GLFW_KEY_I` (lines 251 to 262). -/
def infoOutput (sem : IntSem) (s : ViewportState) : List Effect :=
  [ Effect.print "\n当前视口参数:\n",
    Effect.print (showViewport s ++ "\n"),
    Effect.print "\n坐标变换示例 (NDC -> 屏幕):\n",
    Effect.print ("NDC(-1, 1) -> 屏幕("
      ++ toString (ndcToScreen sem (-1) s.viewport_width s.viewport_x) ++ ", "
      ++ toString (ndcToScreen sem 1 s.viewport_height s.viewport_y) ++ ")\n"),
    Effect.print ("NDC(1, -1) -> 屏幕("
      ++ toString (ndcToScreen sem 1 s.viewport_width s.viewport_x) ++ ", "
      ++ toString (ndcToScreen sem (-1) s.viewport_height s.viewport_y) ++ ")\n") ]

/-- The `switch (key)` of `key_callback` (lines 208 to 266): the state after
it, the flag `viewport_changed`, and the output written inside it. -/
def keySwitch (sem : IntSem) (s : ViewportState) (key : Int) :
    ViewportState × Bool × List Effect :=
  if key = GLFW_KEY_W then
    ({ s with viewport_y := intAdd sem s.viewport_y 10 }, true, [])
  else if key = GLFW_KEY_S then
    ({ s with viewport_y := intSub sem s.viewport_y 10 }, true, [])
  else if key = GLFW_KEY_A then
    ({ s with viewport_x := intSub sem s.viewport_x 10 }, true, [])
  else if key = GLFW_KEY_D then
    ({ s with viewport_x := intAdd sem s.viewport_x 10 }, true, [])
  else if key = GLFW_KEY_Q then
    let w := intAdd sem s.viewport_width 10
    ({ s with viewport_width := if w > SCR_WIDTH then SCR_WIDTH else w }, true, [])
  else if key = GLFW_KEY_E then
    let w := intSub sem s.viewport_width 10
    ({ s with viewport_width := if w < 50 then 50 else w }, true, [])
  else if key = GLFW_KEY_Z then
    let h := intAdd sem s.viewport_height 10
    ({ s with viewport_height := if h > SCR_HEIGHT then SCR_HEIGHT else h }, true, [])
  else if key = GLFW_KEY_C then
    let h := intSub sem s.viewport_height 10
    ({ s with viewport_height := if h < 50 then 50 else h }, true, [])
  else if key = GLFW_KEY_R then
    ({ viewport_x := 0, viewport_y := 0,
       viewport_width := SCR_WIDTH, viewport_height := SCR_HEIGHT }, true, [])
  else if key = GLFW_KEY_T then
    ({ viewport_x := -200, viewport_y := -150,
       viewport_width := SCR_WIDTH, viewport_height := SCR_HEIGHT }, true, [])
  else if key = GLFW_KEY_I then
    (s, true, infoOutput sem s)
  else
    (s, false, [])

/-- The key handler `key_callback(window, key, scancode, action, mods)`
(lines 203 to 276); `window`, `scancode` and `mods` are never read.  Returns
the new globals and the calls made. -/
def key_callback (sem : IntSem) (s : ViewportState) (key action : Int) :
    ViewportState × List Effect :=
  if action = GLFW_PRESS ∨ action = GLFW_REPEAT then
    let r := keySwitch sem s key
    if r.2.1 then
      (r.1, r.2.2 ++
        [ Effect.glViewport r.1.viewport_x r.1.viewport_y
            r.1.viewport_width r.1.viewport_height,
          Effect.print ("视口已更新为: " ++ showViewport r.1 ++ "\n") ])
    else
      (r.1, r.2.2)
  else
    (s, [])

/-- The state after a sequence of key events `(key, action)`, each handled by
`key_callback`. -/
def handleKeys (sem : IntSem) (s : ViewportState) : List (Int × Int) → ViewportState
  | [] => s
  | e :: es => handleKeys sem (key_callback sem s e.1 e.2).1 es

/-- Both sizes are within their clamp ranges. -/
def sizeInBounds (s : ViewportState) : Prop :=
  50 ≤ s.viewport_width ∧ s.viewport_width ≤ SCR_WIDTH ∧
  50 ≤ s.viewport_height ∧ s.viewport_height ≤ SCR_HEIGHT

/-- All four fields are representable `int`s. -/
def ViewportState.valid (s : ViewportState) : Prop :=
  inIntRange s.viewport_x ∧ inIntRange s.viewport_y ∧
  inIntRange s.viewport_width ∧ inIntRange s.viewport_height

/-- The function `processInput`, identical in `advanced_viewport_demo.cpp`
(lines 191 to 195) and `viewport_demo.cpp` (lines 175 to 179): the
should-close flag after it, given whether Escape is reported down. -/
def processInput (escapeDown closing : Bool) : Bool :=
  if escapeDown then true else closing

/-- The status checks after the two `glCompileShader` calls and after
`glLinkProgram`, identical in `advanced_viewport_demo.cpp` (lines 70 to 99)
and `viewport_demo.cpp` (lines 59 to 88): each failed status prints its
heading and the info log, and execution goes on. -/
def shaderDiagnostics (env : Env) : List Effect :=
  (if env.vertexCompiled = false then
    [Effect.print ("ERROR::SHADER::VERTEX::COMPILATION_FAILED\n" ++ env.vertexLog ++ "\n")]
   else []) ++
  (if env.fragmentCompiled = false then
    [Effect.print ("ERROR::SHADER::FRAGMENT::COMPILATION_FAILED\n" ++ env.fragmentLog ++ "\n")]
   else []) ++
  (if env.programLinked = false then
    [Effect.print ("ERROR::SHADER::PROGRAM::LINKING_FAILED\n" ++ env.linkLog ++ "\n")]
   else [])

namespace AdvancedViewportDemo

/-- The key help printed by `main` (lines 141 to 151). -/
def keyHelp : List Effect :=
  [ Effect.print "=== 高级视口演示程序 ===\n",
    Effect.print "按键说明:\n",
    Effect.print "W/S - 增加/减少 viewport_y\n",
    Effect.print "A/D - 减少/增加 viewport_x\n",
    Effect.print "Q/E - 减少/增加 viewport_width\n",
    Effect.print "Z/C - 减少/增加 viewport_height\n",
    Effect.print "R - 重置视口为全屏\n",
    Effect.print "T - 设置视口到负坐标区域\n",
    Effect.print "I - 显示当前视口信息\n",
    Effect.print "ESC - 退出程序\n",
    Effect.print "\n注意观察当视口参数为负值时的渲染效果!\n" ]

/-- The callback `framebuffer_size_callback` (lines 197 to 201): its body
is empty, the custom viewport is not touched. -/
def framebuffer_size_callback (_width _height : Int) : List Effect := []

/-- One call of `glfwPollEvents`: key events go to `key_callback`, resizes to
`framebuffer_size_callback`, a close request sets the should-close flag. -/
def pollEvents (sem : IntSem) (s : ViewportState) (closing : Bool) :
    List WindowEvent → ViewportState × Bool × List Effect
  | [] => (s, closing, [])
  | WindowEvent.key k a :: es =>
    let r := key_callback sem s k a
    let rest := pollEvents sem r.1 closing es
    (rest.1, rest.2.1, r.2 ++ rest.2.2)
  | WindowEvent.framebufferSize w h :: es =>
    let rest := pollEvents sem s closing es
    (rest.1, rest.2.1, framebuffer_size_callback w h ++ rest.2.2)
  | WindowEvent.close :: es => pollEvents sem s true es

/-- The render loop (lines 157 to 180), from the should-close flag `closing`
and the globals `s`: whether the loop was left, the final globals, the calls
made. -/
def renderLoop (sem : IntSem) :
    List Frame → Bool → ViewportState → Bool × ViewportState × List Effect
  | [], closing, s => (closing, s, [])
  | f :: fs, closing, s =>
    if closing then (true, s, [])
    else
      let polled := pollEvents sem s (processInput f.escapeDown closing) f.events
      let rest := renderLoop sem fs polled.2.1 polled.1
      (rest.1, rest.2.1, Effect.drawFrame :: (polled.2.2 ++ rest.2.2))

/-- The function `main` of `advanced_viewport_demo.cpp` (lines 41 to 189). -/
def main (sem : IntSem) (env : Env) : MainResult :=
  if env.windowCreated = false then
    { exitCode := some (-1), enteredLoop := false,
      trace := [Effect.print "Failed to create GLFW window\n", Effect.glfwTerminate] }
  else if env.gladLoaded = false then
    { exitCode := some (-1), enteredLoop := false,
      trace := [Effect.print "Failed to initialize GLAD\n"] }
  else
    let loop := renderLoop sem env.frames false initialViewport
    { exitCode := if loop.1 then some 0 else none,
      enteredLoop := true,
      trace := shaderDiagnostics env ++ keyHelp ++
        [Effect.glViewport initialViewport.viewport_x initialViewport.viewport_y
          initialViewport.viewport_width initialViewport.viewport_height] ++
        loop.2.2 ++ (if loop.1 then [Effect.glfwTerminate] else []) }

end AdvancedViewportDemo

/-! ## `viewport_demo.cpp` -/

namespace ViewportDemo

/-- The explanation printed by `main` (lines 131 to 144). -/
def explanation : List Effect :=
  [ Effect.print "=== OpenGL Viewport 参数说明 ===\n",
    Effect.print "glViewport(x, y, width, height)\n",
    Effect.print "x: 视口左下角的x坐标(像素)\n",
    Effect.print "y: 视口左下角的y坐标(像素)\n",
    Effect.print "width: 视口宽度(像素)\n",
    Effect.print "height: 视口高度(像素)\n",
    Effect.print "\n坐标变换公式:\n",
    Effect.print "屏幕X = (NDC_X + 1) * (width/2) + x\n",
    Effect.print "屏幕Y = (NDC_Y + 1) * (height/2) + y\n",
    Effect.print "\n示例:\n",
    Effect.print "如果NDC坐标为(-1, 1)且视口为(100, 100, 600, 400)\n",
    Effect.print "屏幕X = (-1 + 1) * (600/2) + 100 = 100\n",
    Effect.print "屏幕Y = (1 + 1) * (400/2) + 100 = 500\n",
    Effect.print "\n按ESC退出程序\n" ]

/-- The callback `framebuffer_size_callback` (lines 181 to 185). -/
def framebuffer_size_callback (width height : Int) : List Effect :=
  [Effect.glViewport 0 0 width height]

/-- One call of `glfwPollEvents`: no key callback is registered, resizes go
to `framebuffer_size_callback`, a close request sets the should-close flag. -/
def pollEvents (closing : Bool) : List WindowEvent → Bool × List Effect
  | [] => (closing, [])
  | WindowEvent.key _ _ :: es => pollEvents closing es
  | WindowEvent.framebufferSize w h :: es =>
    let rest := pollEvents closing es
    (rest.1, framebuffer_size_callback w h ++ rest.2)
  | WindowEvent.close :: es => pollEvents true es

/-- The render loop (lines 150 to 164): whether it was left, and the calls
made. -/
def renderLoop : List Frame → Bool → Bool × List Effect
  | [], closing => (closing, [])
  | f :: fs, closing =>
    if closing then (true, [])
    else
      let polled := pollEvents (processInput f.escapeDown closing) f.events
      let rest := renderLoop fs polled.1
      (rest.1, Effect.drawFrame :: (polled.2 ++ rest.2))

/-- The function `main` of `viewport_demo.cpp` (lines 31 to 173). -/
def main (env : Env) : MainResult :=
  if env.windowCreated = false then
    { exitCode := some (-1), enteredLoop := false,
      trace := [Effect.print "Failed to create GLFW window\n", Effect.glfwTerminate] }
  else if env.gladLoaded = false then
    { exitCode := some (-1), enteredLoop := false,
      trace := [Effect.print "Failed to initialize GLAD\n"] }
  else
    let loop := renderLoop env.frames false
    { exitCode := if loop.1 then some 0 else none,
      enteredLoop := true,
      trace := shaderDiagnostics env ++ explanation ++
        [Effect.glViewport 0 0 SCR_WIDTH SCR_HEIGHT] ++
        loop.2 ++ (if loop.1 then [Effect.glfwTerminate] else []) }

end ViewportDemo

/-! ## `main.cpp` and `shader.h` -/

namespace MainCpp

/-- The calls of `loadShader` (`shader.h`, lines 8 to 37): it compiles and
links without ever querying a status, writes nothing and always returns the
program handle to its caller. -/
def loadShader (_env : Env) : List Effect := []

/-- The callback `framebuffer_size_callback` (lines 11 to 14). -/
def framebuffer_size_callback (w_ h_ : Int) : List Effect :=
  [Effect.glViewport 0 0 w_ h_]

/-- One call of `glfwPollEvents`: no key callback is registered, resizes go
to `framebuffer_size_callback`, a close request sets the should-close flag. -/
def pollEvents (closing : Bool) : List WindowEvent → Bool × List Effect
  | [] => (closing, [])
  | WindowEvent.key _ _ :: es => pollEvents closing es
  | WindowEvent.framebufferSize w h :: es =>
    let rest := pollEvents closing es
    (rest.1, framebuffer_size_callback w h ++ rest.2)
  | WindowEvent.close :: es => pollEvents true es

/-- The render loop (lines 72 to 83); this program does not read the Escape
key. -/
def renderLoop : List Frame → Bool → Bool × List Effect
  | [], closing => (closing, [])
  | f :: fs, closing =>
    if closing then (true, [])
    else
      let polled := pollEvents closing f.events
      let rest := renderLoop fs polled.1
      (rest.1, Effect.drawFrame :: (polled.2 ++ rest.2))

/-- The function `main` of `main.cpp` (lines 24 to 91). -/
def main (env : Env) : MainResult :=
  if env.windowCreated = false then
    { exitCode := some (-1), enteredLoop := false, trace := [Effect.glfwTerminate] }
  else if env.gladLoaded = false then
    { exitCode := some (-1), enteredLoop := false,
      trace := [Effect.printErr "gladLoadGL error\n"] }
  else
    let loop := renderLoop env.frames false
    { exitCode := if loop.1 then some 0 else none,
      enteredLoop := true,
      trace := [Effect.glViewport 0 0 800 600] ++ loadShader env ++
        loop.2 ++ (if loop.1 then [Effect.glfwTerminate] else []) }

end MainCpp

/-- Some frame of the script asks to close the window, by the Escape key or
by a close request. -/
def closesWindow (frames : List Frame) : Prop :=
  ∃ f ∈ frames, f.escapeDown = true ∨ WindowEvent.close ∈ f.events

/-- An environment in which window creation and the GL loader succeed, the
vertex shader fails to compile, and the user closes the window during the
first frame. -/
def badVertexShaderEnv : Env :=
  { windowCreated := true, gladLoaded := true,
    vertexCompiled := false, fragmentCompiled := true, programLinked := true,
    vertexLog := "0:1: syntax error", fragmentLog := "", linkLog := "",
    frames := [{ escapeDown := false, events := [WindowEvent.close] }] }

/-! ## Sample inputs -/

/-- A state near the lower width clamp, the upper height clamp and the upper
end of the `int` range in x. -/
def nearClampState : ViewportState :=
  { viewport_x := 2147483640, viewport_y := -7, viewport_width := 60, viewport_height := 590 }

/-- A key sequence that overflows x and runs into both clamps from
`nearClampState`. -/
def sampleKeys : List (Int × Int) :=
  [(GLFW_KEY_D, GLFW_PRESS), (GLFW_KEY_E, GLFW_PRESS), (GLFW_KEY_E, GLFW_REPEAT),
   (GLFW_KEY_Z, GLFW_PRESS), (GLFW_KEY_Z, GLFW_REPEAT), (GLFW_KEY_ESCAPE, GLFW_RELEASE)]

/-- An environment in which start-up succeeds and the user closes the window
during the first frame, after pressing Q once. -/
def healthyEnv : Env :=
  { windowCreated := true, gladLoaded := true,
    vertexCompiled := true, fragmentCompiled := true, programLinked := true,
    vertexLog := "", fragmentLog := "", linkLog := "",
    frames := [{ escapeDown := false,
                 events := [WindowEvent.key GLFW_KEY_Q GLFW_PRESS, WindowEvent.close] }] }

/-- All four fields are multiples of 10. -/
def onGrid (s : ViewportState) : Prop :=
  10 ∣ s.viewport_x ∧ 10 ∣ s.viewport_y ∧ 10 ∣ s.viewport_width ∧ 10 ∣ s.viewport_height

/-- Some frame of the script carries a close request. -/
def requestsClose (frames : List Frame) : Prop :=
  ∃ f ∈ frames, WindowEvent.close ∈ f.events

/-! ## Machine-integer lemmas -/

theorem storeInt_of_inIntRange (ovf : Int → Int) (v : Int) (h : inIntRange v) :
    storeInt ovf v = v := by
  unfold storeInt
  rw [if_pos h]

theorem intAdd_of_inIntRange (sem : IntSem) (a b : Int) (h : inIntRange (a + b)) :
    intAdd sem a b = a + b :=
  storeInt_of_inIntRange sem.arith (a + b) h

theorem intSub_of_inIntRange (sem : IntSem) (a b : Int) (h : inIntRange (a - b)) :
    intSub sem a b = a - b :=
  storeInt_of_inIntRange sem.arith (a - b) h

theorem inIntRange_of_bounds (v : Int) (h1 : -2147483648 ≤ v) (h2 : v ≤ 2147483647) :
    inIntRange v := by
  unfold inIntRange INT_MIN INT_MAX
  exact ⟨h1, h2⟩

theorem bounds_of_inIntRange (v : Int) (h : inIntRange v) :
    -2147483648 ≤ v ∧ v ≤ 2147483647 := by
  unfold inIntRange INT_MIN INT_MAX at h
  exact h

theorem storeInt_unbounded (v : Int) : storeInt (fun v => v) v = v := by
  unfold storeInt
  split <;> rfl

theorem clamp_above_eq_min (x b : Int) : (if x > b then b else x) = min x b := by
  rw [min_def]
  by_cases h : x > b
  · rw [if_pos h, if_neg (by omega)]
  · rw [if_neg h, if_pos (by omega)]

theorem clamp_below_eq_max (x b : Int) : (if x < b then b else x) = max x b := by
  rw [max_def]
  by_cases h : x < b
  · rw [if_pos h, if_pos (by omega)]
  · rw [if_neg h]
    by_cases h2 : x = b
    · rw [if_pos (by omega), h2]
    · rw [if_neg (by omega)]

/-! ## The key handler, case by case -/

theorem keySwitch_cases (sem : IntSem) (s : ViewportState) (key : Int)
    (P : ViewportState × Bool × List Effect → Prop)
    (hW : P ({ s with viewport_y := intAdd sem s.viewport_y 10 }, true, []))
    (hS : P ({ s with viewport_y := intSub sem s.viewport_y 10 }, true, []))
    (hA : P ({ s with viewport_x := intSub sem s.viewport_x 10 }, true, []))
    (hD : P ({ s with viewport_x := intAdd sem s.viewport_x 10 }, true, []))
    (hQ : P ({ s with viewport_width := if intAdd sem s.viewport_width 10 > SCR_WIDTH
                then SCR_WIDTH else intAdd sem s.viewport_width 10 }, true, []))
    (hE : P ({ s with viewport_width := if intSub sem s.viewport_width 10 < 50
                then 50 else intSub sem s.viewport_width 10 }, true, []))
    (hZ : P ({ s with viewport_height := if intAdd sem s.viewport_height 10 > SCR_HEIGHT
                then SCR_HEIGHT else intAdd sem s.viewport_height 10 }, true, []))
    (hC : P ({ s with viewport_height := if intSub sem s.viewport_height 10 < 50
                then 50 else intSub sem s.viewport_height 10 }, true, []))
    (hR : P ({ viewport_x := 0, viewport_y := 0,
               viewport_width := SCR_WIDTH, viewport_height := SCR_HEIGHT }, true, []))
    (hT : P ({ viewport_x := -200, viewport_y := -150,
               viewport_width := SCR_WIDTH, viewport_height := SCR_HEIGHT }, true, []))
    (hI : P (s, true, infoOutput sem s))
    (hOther : P (s, false, [])) :
    P (keySwitch sem s key) := by
  unfold keySwitch
  by_cases kW : key = GLFW_KEY_W
  · rw [if_pos kW]; exact hW
  rw [if_neg kW]
  by_cases kS : key = GLFW_KEY_S
  · rw [if_pos kS]; exact hS
  rw [if_neg kS]
  by_cases kA : key = GLFW_KEY_A
  · rw [if_pos kA]; exact hA
  rw [if_neg kA]
  by_cases kD : key = GLFW_KEY_D
  · rw [if_pos kD]; exact hD
  rw [if_neg kD]
  by_cases kQ : key = GLFW_KEY_Q
  · rw [if_pos kQ]; exact hQ
  rw [if_neg kQ]
  by_cases kE : key = GLFW_KEY_E
  · rw [if_pos kE]; exact hE
  rw [if_neg kE]
  by_cases kZ : key = GLFW_KEY_Z
  · rw [if_pos kZ]; exact hZ
  rw [if_neg kZ]
  by_cases kC : key = GLFW_KEY_C
  · rw [if_pos kC]; exact hC
  rw [if_neg kC]
  by_cases kR : key = GLFW_KEY_R
  · rw [if_pos kR]; exact hR
  rw [if_neg kR]
  by_cases kT : key = GLFW_KEY_T
  · rw [if_pos kT]; exact hT
  rw [if_neg kT]
  by_cases kI : key = GLFW_KEY_I
  · rw [if_pos kI]; exact hI
  rw [if_neg kI]
  exact hOther

theorem key_callback_of_active (sem : IntSem) (s : ViewportState) (key action : Int)
    (h : action = GLFW_PRESS ∨ action = GLFW_REPEAT) :
    key_callback sem s key action =
      if (keySwitch sem s key).2.1 = true then
        ((keySwitch sem s key).1, (keySwitch sem s key).2.2 ++
          [ Effect.glViewport (keySwitch sem s key).1.viewport_x
              (keySwitch sem s key).1.viewport_y
              (keySwitch sem s key).1.viewport_width
              (keySwitch sem s key).1.viewport_height,
            Effect.print ("视口已更新为: " ++ showViewport (keySwitch sem s key).1 ++ "\n") ])
      else ((keySwitch sem s key).1, (keySwitch sem s key).2.2) := by
  unfold key_callback
  rw [if_pos h]

theorem key_callback_of_inactive (sem : IntSem) (s : ViewportState) (key action : Int)
    (h : ¬ (action = GLFW_PRESS ∨ action = GLFW_REPEAT)) :
    key_callback sem s key action = (s, []) := by
  unfold key_callback
  rw [if_neg h]

theorem key_callback_state (sem : IntSem) (s : ViewportState) (key action : Int) :
    (key_callback sem s key action).1 =
      if action = GLFW_PRESS ∨ action = GLFW_REPEAT then (keySwitch sem s key).1 else s := by
  by_cases h : action = GLFW_PRESS ∨ action = GLFW_REPEAT
  · rw [if_pos h, key_callback_of_active sem s key action h]
    by_cases h2 : (keySwitch sem s key).2.1 = true
    · rw [if_pos h2]
    · rw [if_neg h2]
  · rw [if_neg h, key_callback_of_inactive sem s key action h]

theorem keySwitch_sizeInBounds (sem : IntSem) (s : ViewportState) (key : Int)
    (h : sizeInBounds s) : sizeInBounds (keySwitch sem s key).1 := by
  obtain ⟨h1, h2, h3, h4⟩ := h
  have e1 : SCR_WIDTH = 800 := rfl
  have e2 : SCR_HEIGHT = 600 := rfl
  rw [e1] at h2
  rw [e2] at h4
  have a1 : intAdd sem s.viewport_width 10 = s.viewport_width + 10 :=
    intAdd_of_inIntRange sem _ _ (inIntRange_of_bounds _ (by omega) (by omega))
  have a2 : intSub sem s.viewport_width 10 = s.viewport_width - 10 :=
    intSub_of_inIntRange sem _ _ (inIntRange_of_bounds _ (by omega) (by omega))
  have a3 : intAdd sem s.viewport_height 10 = s.viewport_height + 10 :=
    intAdd_of_inIntRange sem _ _ (inIntRange_of_bounds _ (by omega) (by omega))
  have a4 : intSub sem s.viewport_height 10 = s.viewport_height - 10 :=
    intSub_of_inIntRange sem _ _ (inIntRange_of_bounds _ (by omega) (by omega))
  apply keySwitch_cases sem s key (fun r => sizeInBounds r.1) <;>
    unfold sizeInBounds <;> rw [e1, e2] <;> dsimp only
  · exact ⟨h1, h2, h3, h4⟩
  · exact ⟨h1, h2, h3, h4⟩
  · exact ⟨h1, h2, h3, h4⟩
  · exact ⟨h1, h2, h3, h4⟩
  · rw [a1]; refine ⟨?_, ?_, h3, h4⟩ <;> split <;> omega
  · rw [a2]; refine ⟨?_, ?_, h3, h4⟩ <;> split <;> omega
  · rw [a3]; refine ⟨h1, h2, ?_, ?_⟩ <;> split <;> omega
  · rw [a4]; refine ⟨h1, h2, ?_, ?_⟩ <;> split <;> omega
  · omega
  · omega
  · exact ⟨h1, h2, h3, h4⟩
  · exact ⟨h1, h2, h3, h4⟩

theorem key_callback_sizeInBounds (sem : IntSem) (s : ViewportState) (key action : Int)
    (h : sizeInBounds s) : sizeInBounds (key_callback sem s key action).1 := by
  rw [key_callback_state]
  by_cases ha : action = GLFW_PRESS ∨ action = GLFW_REPEAT
  · rw [if_pos ha]; exact keySwitch_sizeInBounds sem s key h
  · rw [if_neg ha]; exact h

theorem initialViewport_sizeInBounds : sizeInBounds initialViewport := by
  unfold sizeInBounds initialViewport SCR_WIDTH SCR_HEIGHT
  decide

theorem handleKeys_sizeInBounds (sem : IntSem) (events : List (Int × Int)) :
    ∀ s : ViewportState, sizeInBounds s → sizeInBounds (handleKeys sem s events) := by
  induction events with
  | nil => intro s h; exact h
  | cons e es ih =>
    intro s h
    exact ih _ (key_callback_sizeInBounds sem s e.1 e.2 h)

theorem keySwitch_Q (sem : IntSem) (s : ViewportState) :
    keySwitch sem s GLFW_KEY_Q =
      ({ s with viewport_width := if intAdd sem s.viewport_width 10 > SCR_WIDTH
                  then SCR_WIDTH else intAdd sem s.viewport_width 10 }, true, []) := rfl

theorem keySwitch_E (sem : IntSem) (s : ViewportState) :
    keySwitch sem s GLFW_KEY_E =
      ({ s with viewport_width := if intSub sem s.viewport_width 10 < 50
                  then 50 else intSub sem s.viewport_width 10 }, true, []) := rfl

theorem keySwitch_Z (sem : IntSem) (s : ViewportState) :
    keySwitch sem s GLFW_KEY_Z =
      ({ s with viewport_height := if intAdd sem s.viewport_height 10 > SCR_HEIGHT
                  then SCR_HEIGHT else intAdd sem s.viewport_height 10 }, true, []) := rfl

theorem keySwitch_C (sem : IntSem) (s : ViewportState) :
    keySwitch sem s GLFW_KEY_C =
      ({ s with viewport_height := if intSub sem s.viewport_height 10 < 50
                  then 50 else intSub sem s.viewport_height 10 }, true, []) := rfl

theorem keySwitch_R (sem : IntSem) (s : ViewportState) :
    keySwitch sem s GLFW_KEY_R =
      ({ viewport_x := 0, viewport_y := 0,
         viewport_width := SCR_WIDTH, viewport_height := SCR_HEIGHT }, true, []) := rfl

theorem keySwitch_I (sem : IntSem) (s : ViewportState) :
    keySwitch sem s GLFW_KEY_I = (s, true, infoOutput sem s) := rfl

theorem keySwitch_other (sem : IntSem) (s : ViewportState) (key : Int)
    (kW : key ≠ GLFW_KEY_W) (kS : key ≠ GLFW_KEY_S) (kA : key ≠ GLFW_KEY_A)
    (kD : key ≠ GLFW_KEY_D) (kQ : key ≠ GLFW_KEY_Q) (kE : key ≠ GLFW_KEY_E)
    (kZ : key ≠ GLFW_KEY_Z) (kC : key ≠ GLFW_KEY_C) (kR : key ≠ GLFW_KEY_R)
    (kT : key ≠ GLFW_KEY_T) (kI : key ≠ GLFW_KEY_I) :
    keySwitch sem s key = (s, false, []) := by
  unfold keySwitch
  rw [if_neg kW, if_neg kS, if_neg kA, if_neg kD, if_neg kQ, if_neg kE, if_neg kZ,
    if_neg kC, if_neg kR, if_neg kT, if_neg kI]

theorem key_callback_state_of_active (sem : IntSem) (s : ViewportState) (key action : Int)
    (h : action = GLFW_PRESS ∨ action = GLFW_REPEAT) :
    (key_callback sem s key action).1 = (keySwitch sem s key).1 := by
  rw [key_callback_state, if_pos h]

/-! ## The NDC-to-screen arithmetic -/

theorem castInt_intCast (sem : IntSem) (z : Int) :
    castInt sem (z : ℚ) = storeInt sem.conv z := by
  unfold castInt
  rw [Rat.num_intCast, Rat.den_intCast]
  simp

theorem ndcToScreen_eq_castInt (sem : IntSem) (n size offset : Int) :
    ndcToScreen sem n size offset = castInt sem (ndcToScreenReal n size offset) := rfl

theorem ndcToScreenReal_neg_one (size offset : Int) :
    ndcToScreenReal (-1) size offset = ((offset : Int) : ℚ) := by
  unfold ndcToScreenReal
  simp

theorem ndcToScreenReal_one (size offset : Int) :
    ndcToScreenReal 1 size offset = ((offset + size : Int) : ℚ) := by
  unfold ndcToScreenReal
  push_cast
  ring

/-! ## Traces -/

theorem viewportCalls_append (a b : List Effect) :
    viewportCalls (a ++ b) = viewportCalls a ++ viewportCalls b := by
  induction a with
  | nil => rfl
  | cons e es ih =>
    cases e <;> simp [viewportCalls, ih]

theorem viewportCalls_shaderDiagnostics (env : Env) :
    viewportCalls (shaderDiagnostics env) = [] := by
  unfold shaderDiagnostics
  rw [viewportCalls_append, viewportCalls_append]
  cases env.vertexCompiled <;> cases env.fragmentCompiled <;> cases env.programLinked <;> rfl

theorem viewportCalls_keyHelp : viewportCalls AdvancedViewportDemo.keyHelp = [] := rfl

theorem intAdd_unbounded (a b : Int) : intAdd unboundedSem a b = a + b :=
  storeInt_unbounded (a + b)

theorem intSub_unbounded (a b : Int) : intSub unboundedSem a b = a - b :=
  storeInt_unbounded (a - b)

theorem keySwitch_onGrid (s : ViewportState) (key : Int) (h : onGrid s) :
    onGrid (keySwitch unboundedSem s key).1 := by
  obtain ⟨h1, h2, h3, h4⟩ := h
  have e1 : SCR_WIDTH = 800 := rfl
  have e2 : SCR_HEIGHT = 600 := rfl
  apply keySwitch_cases unboundedSem s key (fun r => onGrid r.1) <;>
    unfold onGrid <;> dsimp only <;>
    try simp only [intAdd_unbounded, intSub_unbounded, e1, e2]
  · exact ⟨h1, by omega, h3, h4⟩
  · exact ⟨h1, by omega, h3, h4⟩
  · exact ⟨by omega, h2, h3, h4⟩
  · exact ⟨by omega, h2, h3, h4⟩
  · refine ⟨h1, h2, ?_, h4⟩; split <;> omega
  · refine ⟨h1, h2, ?_, h4⟩; split <;> omega
  · refine ⟨h1, h2, h3, ?_⟩; split <;> omega
  · refine ⟨h1, h2, h3, ?_⟩; split <;> omega
  · omega
  · omega
  · exact ⟨h1, h2, h3, h4⟩
  · exact ⟨h1, h2, h3, h4⟩

theorem key_callback_onGrid (s : ViewportState) (key action : Int) (h : onGrid s) :
    onGrid (key_callback unboundedSem s key action).1 := by
  rw [key_callback_state]
  by_cases ha : action = GLFW_PRESS ∨ action = GLFW_REPEAT
  · rw [if_pos ha]; exact keySwitch_onGrid s key h
  · rw [if_neg ha]; exact h

theorem handleKeys_onGrid (events : List (Int × Int)) :
    ∀ s : ViewportState, onGrid s → onGrid (handleKeys unboundedSem s events) := by
  induction events with
  | nil => intro s h; exact h
  | cons e es ih =>
    intro s h
    exact ih _ (key_callback_onGrid s e.1 e.2 h)

theorem initialViewport_onGrid : onGrid initialViewport := by
  unfold onGrid initialViewport
  decide

theorem ndcToScreen_eq_intHalf_of_even (n size offset : Int) (h : 2 ∣ size) :
    ndcToScreen unboundedSem n size offset = ndcToScreenIntHalf n size offset := by
  obtain ⟨k, hk⟩ := h
  have e : ndcToScreenReal n size offset = (((n + 1) * k + offset : Int) : ℚ) := by
    unfold ndcToScreenReal
    rw [hk]
    push_cast
    ring
  rw [ndcToScreen_eq_castInt, e, castInt_intCast]
  unfold ndcToScreenIntHalf
  rw [hk, Int.mul_tdiv_cancel_left k (by decide)]
  exact storeInt_unbounded _

theorem half_whole_of_even (size : Int) (h : 2 ∣ size) :
    ∃ k : Int, (size : ℚ) / 2 = (k : ℚ) := by
  obtain ⟨k, hk⟩ := h
  refine ⟨k, ?_⟩
  rw [hk]
  push_cast
  ring

/-! ## The render loops -/

theorem processInput_of_escape (escapeDown closing : Bool) (h : escapeDown = true) :
    processInput escapeDown closing = true := by
  unfold processInput
  rw [if_pos h]

theorem append_assoc_five (a b c d e : List Effect) :
    a ++ b ++ c ++ d ++ e = a ++ (b ++ (c ++ (d ++ e))) := by
  simp only [List.append_assoc]

theorem advanced_pollEvents_closing (sem : IntSem) (events : List WindowEvent) :
    ∀ (s : ViewportState) (closing : Bool),
      (closing = true ∨ WindowEvent.close ∈ events) →
      (AdvancedViewportDemo.pollEvents sem s closing events).2.1 = true := by
  induction events with
  | nil =>
    intro s closing h
    rcases h with h | h
    · exact h
    · exact absurd h (List.not_mem_nil _)
  | cons e es ih =>
    intro s closing h
    cases e with
    | key k a =>
      apply ih
      rcases h with h | h
      · exact Or.inl h
      · rcases List.mem_cons.mp h with h | h
        · cases h
        · exact Or.inr h
    | framebufferSize w h' =>
      apply ih
      rcases h with h | h
      · exact Or.inl h
      · rcases List.mem_cons.mp h with h | h
        · cases h
        · exact Or.inr h
    | close => exact ih s true (Or.inl rfl)

theorem advanced_renderLoop_exits (sem : IntSem) (frames : List Frame) :
    ∀ (closing : Bool) (s : ViewportState),
      (closing = true ∨ closesWindow frames) →
      (AdvancedViewportDemo.renderLoop sem frames closing s).1 = true := by
  induction frames with
  | nil =>
    intro closing s h
    rcases h with h | ⟨f, hf, _⟩
    · exact h
    · exact absurd hf (List.not_mem_nil _)
  | cons f fs ih =>
    intro closing s h
    unfold AdvancedViewportDemo.renderLoop
    by_cases hc : closing = true
    · rw [if_pos hc]
    · rw [if_neg hc]
      apply ih
      rcases h with h | ⟨g, hg, hclose⟩
      · exact absurd h hc
      · rcases List.mem_cons.mp hg with hg | hg
        · rw [hg] at hclose
          exact Or.inl (advanced_pollEvents_closing sem f.events s _
            (hclose.imp (processInput_of_escape f.escapeDown closing) id))
        · exact Or.inr ⟨g, hg, hclose⟩

theorem demo_pollEvents_closing (events : List WindowEvent) :
    ∀ closing : Bool,
      (closing = true ∨ WindowEvent.close ∈ events) →
      (ViewportDemo.pollEvents closing events).1 = true := by
  induction events with
  | nil =>
    intro closing h
    rcases h with h | h
    · exact h
    · exact absurd h (List.not_mem_nil _)
  | cons e es ih =>
    intro closing h
    cases e with
    | key k a =>
      apply ih
      rcases h with h | h
      · exact Or.inl h
      · rcases List.mem_cons.mp h with h | h
        · cases h
        · exact Or.inr h
    | framebufferSize w h' =>
      apply ih
      rcases h with h | h
      · exact Or.inl h
      · rcases List.mem_cons.mp h with h | h
        · cases h
        · exact Or.inr h
    | close => exact ih true (Or.inl rfl)

theorem demo_renderLoop_exits (frames : List Frame) :
    ∀ closing : Bool,
      (closing = true ∨ closesWindow frames) →
      (ViewportDemo.renderLoop frames closing).1 = true := by
  induction frames with
  | nil =>
    intro closing h
    rcases h with h | ⟨f, hf, _⟩
    · exact h
    · exact absurd hf (List.not_mem_nil _)
  | cons f fs ih =>
    intro closing h
    unfold ViewportDemo.renderLoop
    by_cases hc : closing = true
    · rw [if_pos hc]
    · rw [if_neg hc]
      apply ih
      rcases h with h | ⟨g, hg, hclose⟩
      · exact absurd h hc
      · rcases List.mem_cons.mp hg with hg | hg
        · rw [hg] at hclose
          exact Or.inl (demo_pollEvents_closing f.events _
            (hclose.imp (processInput_of_escape f.escapeDown closing) id))
        · exact Or.inr ⟨g, hg, hclose⟩

theorem mainCpp_pollEvents_closing (events : List WindowEvent) :
    ∀ closing : Bool,
      (closing = true ∨ WindowEvent.close ∈ events) →
      (MainCpp.pollEvents closing events).1 = true := by
  induction events with
  | nil =>
    intro closing h
    rcases h with h | h
    · exact h
    · exact absurd h (List.not_mem_nil _)
  | cons e es ih =>
    intro closing h
    cases e with
    | key k a =>
      apply ih
      rcases h with h | h
      · exact Or.inl h
      · rcases List.mem_cons.mp h with h | h
        · cases h
        · exact Or.inr h
    | framebufferSize w h' =>
      apply ih
      rcases h with h | h
      · exact Or.inl h
      · rcases List.mem_cons.mp h with h | h
        · cases h
        · exact Or.inr h
    | close => exact ih true (Or.inl rfl)

theorem mainCpp_renderLoop_exits (frames : List Frame) :
    ∀ closing : Bool,
      (closing = true ∨ requestsClose frames) →
      (MainCpp.renderLoop frames closing).1 = true := by
  induction frames with
  | nil =>
    intro closing h
    rcases h with h | ⟨f, hf, _⟩
    · exact h
    · exact absurd hf (List.not_mem_nil _)
  | cons f fs ih =>
    intro closing h
    unfold MainCpp.renderLoop
    by_cases hc : closing = true
    · rw [if_pos hc]
    · rw [if_neg hc]
      apply ih
      rcases h with h | ⟨g, hg, hclose⟩
      · exact absurd h hc
      · rcases List.mem_cons.mp hg with hg | hg
        · rw [hg] at hclose
          exact Or.inl (mainCpp_pollEvents_closing f.events closing (Or.inr hclose))
        · exact Or.inr ⟨g, hg, hclose⟩

theorem consoleOutput_append (a b : List Effect) :
    consoleOutput (a ++ b) = consoleOutput a ++ consoleOutput b := by
  induction a with
  | nil => rfl
  | cons e es ih =>
    cases e <;> simp [consoleOutput, ih]

theorem mainCpp_consoleOutput_pollEvents (events : List WindowEvent) :
    ∀ closing : Bool, consoleOutput (MainCpp.pollEvents closing events).2 = [] := by
  induction events with
  | nil => intro closing; rfl
  | cons e es ih =>
    intro closing
    cases e with
    | key k a => exact ih closing
    | framebufferSize w h => exact ih closing
    | close => exact ih true

theorem mainCpp_consoleOutput_renderLoop (frames : List Frame) :
    ∀ closing : Bool, consoleOutput (MainCpp.renderLoop frames closing).2 = [] := by
  induction frames with
  | nil => intro closing; rfl
  | cons f fs ih =>
    intro closing
    unfold MainCpp.renderLoop
    by_cases hc : closing = true
    · rw [if_pos hc]; rfl
    · rw [if_neg hc]
      show consoleOutput (Effect.drawFrame :: _) = []
      unfold consoleOutput
      rw [consoleOutput_append, mainCpp_consoleOutput_pollEvents, ih]
      rfl

/-! ## Claims -/

/-- C1: the size bounds are an invariant of the key handler.  From the
initial globals, or from any state with `50 ≤ width ≤ 800` and
`50 ≤ height ≤ 600`, the state after every finite sequence of key events
(any keys, any actions, whatever the platform does on overflow of x or y)
still has `50 ≤ width ≤ 800` and `50 ≤ height ≤ 600`. -/
theorem size_bounds_invariant (sem : IntSem) (s : ViewportState)
    (events : List (Int × Int)) (h : s = initialViewport ∨ sizeInBounds s) :
    50 ≤ (handleKeys sem s events).viewport_width ∧
    (handleKeys sem s events).viewport_width ≤ 800 ∧
    50 ≤ (handleKeys sem s events).viewport_height ∧
    (handleKeys sem s events).viewport_height ≤ 600 := by
  have hs : sizeInBounds s := by
    rcases h with h | h
    · rw [h]; exact initialViewport_sizeInBounds
    · exact h
  exact handleKeys_sizeInBounds sem events s hs

theorem size_bounds_invariant_witness :
    (nearClampState = initialViewport ∨ sizeInBounds nearClampState) ∧
    50 ≤ (handleKeys wrapSem nearClampState sampleKeys).viewport_width ∧
    (handleKeys wrapSem nearClampState sampleKeys).viewport_width ≤ 800 ∧
    50 ≤ (handleKeys wrapSem nearClampState sampleKeys).viewport_height ∧
    (handleKeys wrapSem nearClampState sampleKeys).viewport_height ≤ 600 :=
  ⟨Or.inr (by unfold sizeInBounds nearClampState SCR_WIDTH SCR_HEIGHT; decide),
   size_bounds_invariant wrapSem nearClampState sampleKeys
     (Or.inr (by unfold sizeInBounds nearClampState SCR_WIDTH SCR_HEIGHT; decide))⟩

/-- C2 (evaluation of the code): handling a press or a repeat of the info key
I from the initial globals issues one `glViewport` call, with the unchanged
rectangle, because `viewport_changed` is still `true` after `case GLFW_KEY_I`;
the state itself is unchanged. -/
theorem info_key_issues_viewport_call :
    viewportCalls (key_callback wrapSem initialViewport GLFW_KEY_I GLFW_PRESS).2 =
      [(100, 100, 600, 400)] ∧
    viewportCalls (key_callback wrapSem initialViewport GLFW_KEY_I GLFW_REPEAT).2 =
      [(100, 100, 600, 400)] ∧
    (key_callback wrapSem initialViewport GLFW_KEY_I GLFW_PRESS).1 = initialViewport := by
  refine ⟨?_, ?_, ?_⟩
  · rw [key_callback_of_active _ _ _ _ (Or.inl rfl), keySwitch_I]
    rfl
  · rw [key_callback_of_active _ _ _ _ (Or.inr rfl), keySwitch_I]
    rfl
  · rw [key_callback_state_of_active _ _ _ _ (Or.inl rfl), keySwitch_I]

/-- C3 (as stated, refuted): the globals at program start are not the
full-screen rectangle, and the first `glViewport` call of `main` does not
pass `(0, 0, 800, 600)`. -/
theorem initial_state_not_fullscreen :
    initialViewport ≠ { viewport_x := 0, viewport_y := 0,
                        viewport_width := SCR_WIDTH, viewport_height := SCR_HEIGHT } ∧
    (viewportCalls (AdvancedViewportDemo.main wrapSem healthyEnv).trace).head? ≠
      some (0, 0, 800, 600) := by
  constructor
  · decide
  · decide

/-- C3 (amended): the globals at program start are `(100, 100, 600, 400)`;
whenever window creation and the GL loader succeed, this is the rectangle of
the first `glViewport` call of `main`; the reset preset produces
`(0, 0, 800, 600)`, a different state. -/
theorem initial_state_and_first_viewport_call (sem : IntSem) (env : Env)
    (hw : env.windowCreated = true) (hg : env.gladLoaded = true) :
    initialViewport = { viewport_x := 100, viewport_y := 100,
                        viewport_width := 600, viewport_height := 400 } ∧
    (viewportCalls (AdvancedViewportDemo.main sem env).trace).head? =
      some (100, 100, 600, 400) ∧
    (key_callback sem initialViewport GLFW_KEY_R GLFW_PRESS).1 =
      { viewport_x := 0, viewport_y := 0, viewport_width := 800, viewport_height := 600 } ∧
    (key_callback sem initialViewport GLFW_KEY_R GLFW_PRESS).1 ≠ initialViewport := by
  have hr : (key_callback sem initialViewport GLFW_KEY_R GLFW_PRESS).1 =
      { viewport_x := 0, viewport_y := 0, viewport_width := 800, viewport_height := 600 } := by
    rw [key_callback_state_of_active _ _ _ _ (Or.inl rfl), keySwitch_R]
    rfl
  refine ⟨rfl, ?_, hr, ?_⟩
  · unfold AdvancedViewportDemo.main
    rw [if_neg (by rw [hw]; decide), if_neg (by rw [hg]; decide)]
    simp only [viewportCalls_append, viewportCalls_shaderDiagnostics, viewportCalls_keyHelp,
      List.nil_append]
    rfl
  · rw [hr]
    decide

theorem initial_state_and_first_viewport_call_witness :
    healthyEnv.windowCreated = true ∧ healthyEnv.gladLoaded = true ∧
    (initialViewport = { viewport_x := 100, viewport_y := 100,
                         viewport_width := 600, viewport_height := 400 } ∧
    (viewportCalls (AdvancedViewportDemo.main wrapSem healthyEnv).trace).head? =
      some (100, 100, 600, 400) ∧
    (key_callback wrapSem initialViewport GLFW_KEY_R GLFW_PRESS).1 =
      { viewport_x := 0, viewport_y := 0, viewport_width := 800, viewport_height := 600 } ∧
    (key_callback wrapSem initialViewport GLFW_KEY_R GLFW_PRESS).1 ≠ initialViewport) :=
  ⟨rfl, rfl, initial_state_and_first_viewport_call wrapSem healthyEnv rfl rfl⟩

/-- C4 (evaluation of the code): the key help printed by `main` announces
Q and Z as the decreasing keys and E and C as the increasing keys, yet from
the initial globals (width 600, height 400) a press of Q yields width 610,
E yields width 590, Z yields height 410 and C yields height 390. -/
theorem size_keys_opposite_to_help :
    Effect.print "Q/E - 减少/增加 viewport_width\n" ∈ AdvancedViewportDemo.keyHelp ∧
    Effect.print "Z/C - 减少/增加 viewport_height\n" ∈ AdvancedViewportDemo.keyHelp ∧
    (key_callback wrapSem initialViewport GLFW_KEY_Q GLFW_PRESS).1.viewport_width = 610 ∧
    (key_callback wrapSem initialViewport GLFW_KEY_E GLFW_PRESS).1.viewport_width = 590 ∧
    (key_callback wrapSem initialViewport GLFW_KEY_Z GLFW_PRESS).1.viewport_height = 410 ∧
    (key_callback wrapSem initialViewport GLFW_KEY_C GLFW_PRESS).1.viewport_height = 390 := by
  refine ⟨?_, ?_, ?_, ?_, ?_, ?_⟩
  · simp [AdvancedViewportDemo.keyHelp]
  · simp [AdvancedViewportDemo.keyHelp]
  · decide
  · decide
  · decide
  · decide

/-- C5: NDC-to-screen mapping at the corners.  For every state of
representable `int`s whose sums `x + width` and `y + height` are
representable, the expressions evaluated by the info action send NDC (-1, 1)
to exactly `(x, y + height)` and NDC (1, -1) to exactly `(x + width, y)`; the
values before the `(int)` cast are already these integers, so the truncation
loses nothing; and these are the numbers the info action prints. -/
theorem ndc_corner_mapping (sem : IntSem) (s : ViewportState) (hs : s.valid)
    (hx : inIntRange (s.viewport_x + s.viewport_width))
    (hy : inIntRange (s.viewport_y + s.viewport_height)) :
    (ndcToScreen sem (-1) s.viewport_width s.viewport_x = s.viewport_x ∧
     ndcToScreen sem 1 s.viewport_height s.viewport_y = s.viewport_y + s.viewport_height) ∧
    (ndcToScreen sem 1 s.viewport_width s.viewport_x = s.viewport_x + s.viewport_width ∧
     ndcToScreen sem (-1) s.viewport_height s.viewport_y = s.viewport_y) ∧
    (ndcToScreenReal (-1) s.viewport_width s.viewport_x = ((s.viewport_x : Int) : ℚ) ∧
     ndcToScreenReal 1 s.viewport_height s.viewport_y =
       ((s.viewport_y + s.viewport_height : Int) : ℚ) ∧
     ndcToScreenReal 1 s.viewport_width s.viewport_x =
       ((s.viewport_x + s.viewport_width : Int) : ℚ) ∧
     ndcToScreenReal (-1) s.viewport_height s.viewport_y = ((s.viewport_y : Int) : ℚ)) ∧
    infoOutput sem s =
      [ Effect.print "\n当前视口参数:\n",
        Effect.print (showViewport s ++ "\n"),
        Effect.print "\n坐标变换示例 (NDC -> 屏幕):\n",
        Effect.print ("NDC(-1, 1) -> 屏幕(" ++ toString s.viewport_x ++ ", "
          ++ toString (s.viewport_y + s.viewport_height) ++ ")\n"),
        Effect.print ("NDC(1, -1) -> 屏幕(" ++ toString (s.viewport_x + s.viewport_width)
          ++ ", " ++ toString s.viewport_y ++ ")\n") ] := by
  obtain ⟨vx, vy, _, _⟩ := hs
  have e1 : ndcToScreen sem (-1) s.viewport_width s.viewport_x = s.viewport_x := by
    rw [ndcToScreen_eq_castInt, ndcToScreenReal_neg_one, castInt_intCast,
      storeInt_of_inIntRange _ _ vx]
  have e2 : ndcToScreen sem 1 s.viewport_height s.viewport_y =
      s.viewport_y + s.viewport_height := by
    rw [ndcToScreen_eq_castInt, ndcToScreenReal_one, castInt_intCast,
      storeInt_of_inIntRange _ _ hy]
  have e3 : ndcToScreen sem 1 s.viewport_width s.viewport_x =
      s.viewport_x + s.viewport_width := by
    rw [ndcToScreen_eq_castInt, ndcToScreenReal_one, castInt_intCast,
      storeInt_of_inIntRange _ _ hx]
  have e4 : ndcToScreen sem (-1) s.viewport_height s.viewport_y = s.viewport_y := by
    rw [ndcToScreen_eq_castInt, ndcToScreenReal_neg_one, castInt_intCast,
      storeInt_of_inIntRange _ _ vy]
  refine ⟨⟨e1, e2⟩, ⟨e3, e4⟩, ⟨ndcToScreenReal_neg_one _ _, ndcToScreenReal_one _ _,
    ndcToScreenReal_one _ _, ndcToScreenReal_neg_one _ _⟩, ?_⟩
  unfold infoOutput
  rw [e1, e2, e3, e4]

theorem ndc_corner_mapping_witness :
    initialViewport.valid ∧
    ndcToScreen wrapSem (-1) 600 100 = 100 ∧ ndcToScreen wrapSem 1 400 100 = 100 + 400 ∧
    ndcToScreen wrapSem 1 600 100 = 100 + 600 ∧ ndcToScreen wrapSem (-1) 400 100 = 100 :=
  have hv : initialViewport.valid := by unfold ViewportState.valid; decide
  have h := ndc_corner_mapping wrapSem initialViewport hv (by decide) (by decide)
  ⟨hv, h.1.1, h.1.2, h.2.1.1, h.2.1.2⟩

/-- C6: the reset action is state-independent.  For every prior state, a
press or repeat of R yields exactly `(0, 0, SCR_WIDTH, SCR_HEIGHT)`, which is
`(0, 0, 800, 600)`; hence handling R again changes nothing. -/
theorem reset_state_independent (sem : IntSem) (s : ViewportState) (action : Int)
    (h : action = GLFW_PRESS ∨ action = GLFW_REPEAT) :
    (key_callback sem s GLFW_KEY_R action).1 =
      { viewport_x := 0, viewport_y := 0,
        viewport_width := SCR_WIDTH, viewport_height := SCR_HEIGHT } ∧
    SCR_WIDTH = 800 ∧ SCR_HEIGHT = 600 ∧
    (key_callback sem (key_callback sem s GLFW_KEY_R action).1 GLFW_KEY_R action).1 =
      (key_callback sem s GLFW_KEY_R action).1 := by
  have e : ∀ t : ViewportState, (key_callback sem t GLFW_KEY_R action).1 =
      { viewport_x := 0, viewport_y := 0,
        viewport_width := SCR_WIDTH, viewport_height := SCR_HEIGHT } := by
    intro t
    rw [key_callback_state_of_active sem t GLFW_KEY_R action h, keySwitch_R]
  refine ⟨e s, rfl, rfl, ?_⟩
  rw [e, e]

theorem reset_state_independent_witness :
    (GLFW_REPEAT = GLFW_PRESS ∨ GLFW_REPEAT = GLFW_REPEAT) ∧
    (key_callback wrapSem nearClampState GLFW_KEY_R GLFW_REPEAT).1 =
      { viewport_x := 0, viewport_y := 0,
        viewport_width := SCR_WIDTH, viewport_height := SCR_HEIGHT } ∧
    SCR_WIDTH = 800 ∧ SCR_HEIGHT = 600 ∧
    (key_callback wrapSem (key_callback wrapSem nearClampState GLFW_KEY_R GLFW_REPEAT).1
        GLFW_KEY_R GLFW_REPEAT).1 =
      (key_callback wrapSem nearClampState GLFW_KEY_R GLFW_REPEAT).1 :=
  ⟨Or.inr rfl, reset_state_independent wrapSem nearClampState GLFW_REPEAT (Or.inr rfl)⟩

/-- C7: for every state, every key code other than W, S, A, D, Q, E, Z, C, R,
T, I and every action value, `key_callback` leaves the four fields unchanged,
makes no `glViewport` call and writes nothing to the console (indeed it makes
no call at all). -/
theorem unrecognized_key_no_effect (sem : IntSem) (s : ViewportState) (key action : Int)
    (kW : key ≠ GLFW_KEY_W) (kS : key ≠ GLFW_KEY_S) (kA : key ≠ GLFW_KEY_A)
    (kD : key ≠ GLFW_KEY_D) (kQ : key ≠ GLFW_KEY_Q) (kE : key ≠ GLFW_KEY_E)
    (kZ : key ≠ GLFW_KEY_Z) (kC : key ≠ GLFW_KEY_C) (kR : key ≠ GLFW_KEY_R)
    (kT : key ≠ GLFW_KEY_T) (kI : key ≠ GLFW_KEY_I) :
    (key_callback sem s key action).1 = s ∧
    viewportCalls (key_callback sem s key action).2 = [] ∧
    consoleOutput (key_callback sem s key action).2 = [] ∧
    (key_callback sem s key action).2 = [] := by
  have e : key_callback sem s key action = (s, []) := by
    by_cases h : action = GLFW_PRESS ∨ action = GLFW_REPEAT
    · rw [key_callback_of_active sem s key action h,
        keySwitch_other sem s key kW kS kA kD kQ kE kZ kC kR kT kI]
      rfl
    · exact key_callback_of_inactive sem s key action h
  rw [e]
  exact ⟨rfl, rfl, rfl, rfl⟩

theorem unrecognized_key_no_effect_witness :
    (key_callback wrapSem nearClampState GLFW_KEY_ESCAPE GLFW_PRESS).1 = nearClampState ∧
    viewportCalls (key_callback wrapSem nearClampState GLFW_KEY_ESCAPE GLFW_PRESS).2 = [] ∧
    consoleOutput (key_callback wrapSem nearClampState GLFW_KEY_ESCAPE GLFW_PRESS).2 = [] ∧
    (key_callback wrapSem nearClampState GLFW_KEY_ESCAPE GLFW_PRESS).2 = [] :=
  unrecognized_key_no_effect wrapSem nearClampState GLFW_KEY_ESCAPE GLFW_PRESS
    (by decide) (by decide) (by decide) (by decide) (by decide) (by decide)
    (by decide) (by decide) (by decide) (by decide) (by decide)

/-- C8: width and height steps.  For every state whose sizes are at least 10
away from both ends of the `int` range, and for a press or repeat event, the
width-increase action (key Q in the code) yields
`width = min (width + 10) SCR_WIDTH`, the width-decrease action (key E)
yields `width = max (width - 10) 50`, the height-increase action (key Z)
yields `height = min (height + 10) SCR_HEIGHT` and the height-decrease action
(key C) yields `height = max (height - 10) 50`; the other three fields are
unchanged in each case. -/
theorem size_step_semantics (sem : IntSem) (s : ViewportState) (action : Int)
    (h : action = GLFW_PRESS ∨ action = GLFW_REPEAT)
    (hw1 : inIntRange (s.viewport_width + 10)) (hw2 : inIntRange (s.viewport_width - 10))
    (hh1 : inIntRange (s.viewport_height + 10)) (hh2 : inIntRange (s.viewport_height - 10)) :
    (key_callback sem s GLFW_KEY_Q action).1 =
      { s with viewport_width := min (s.viewport_width + 10) SCR_WIDTH } ∧
    (key_callback sem s GLFW_KEY_E action).1 =
      { s with viewport_width := max (s.viewport_width - 10) 50 } ∧
    (key_callback sem s GLFW_KEY_Z action).1 =
      { s with viewport_height := min (s.viewport_height + 10) SCR_HEIGHT } ∧
    (key_callback sem s GLFW_KEY_C action).1 =
      { s with viewport_height := max (s.viewport_height - 10) 50 } := by
  have a1 := intAdd_of_inIntRange sem _ _ hw1
  have a2 := intSub_of_inIntRange sem _ _ hw2
  have a3 := intAdd_of_inIntRange sem _ _ hh1
  have a4 := intSub_of_inIntRange sem _ _ hh2
  refine ⟨?_, ?_, ?_, ?_⟩
  · rw [key_callback_state_of_active sem s _ action h, keySwitch_Q, a1, clamp_above_eq_min]
  · rw [key_callback_state_of_active sem s _ action h, keySwitch_E, a2, clamp_below_eq_max]
  · rw [key_callback_state_of_active sem s _ action h, keySwitch_Z, a3, clamp_above_eq_min]
  · rw [key_callback_state_of_active sem s _ action h, keySwitch_C, a4, clamp_below_eq_max]

theorem size_step_semantics_witness :
    (GLFW_PRESS = GLFW_PRESS ∨ GLFW_PRESS = GLFW_REPEAT) ∧
    inIntRange (nearClampState.viewport_width + 10) ∧
    inIntRange (nearClampState.viewport_height - 10) ∧
    ((key_callback wrapSem nearClampState GLFW_KEY_Q GLFW_PRESS).1 =
      { nearClampState with
        viewport_width := min (nearClampState.viewport_width + 10) SCR_WIDTH } ∧
    (key_callback wrapSem nearClampState GLFW_KEY_E GLFW_PRESS).1 =
      { nearClampState with
        viewport_width := max (nearClampState.viewport_width - 10) 50 } ∧
    (key_callback wrapSem nearClampState GLFW_KEY_Z GLFW_PRESS).1 =
      { nearClampState with
        viewport_height := min (nearClampState.viewport_height + 10) SCR_HEIGHT } ∧
    (key_callback wrapSem nearClampState GLFW_KEY_C GLFW_PRESS).1 =
      { nearClampState with
        viewport_height := max (nearClampState.viewport_height - 10) 50 }) :=
  ⟨Or.inl rfl, by decide, by decide,
   size_step_semantics wrapSem nearClampState GLFW_PRESS (Or.inl rfl)
     (by decide) (by decide) (by decide) (by decide)⟩

/-- C9 (as stated, refuted): with a vertex shader that fails to compile,
`main` of `advanced_viewport_demo.cpp` prints the diagnostic, enters the
render loop all the same and returns 0 once the window is closed. -/
theorem shader_failure_not_fatal :
    badVertexShaderEnv.vertexCompiled = false ∧
    (AdvancedViewportDemo.main wrapSem badVertexShaderEnv).enteredLoop = true ∧
    (AdvancedViewportDemo.main wrapSem badVertexShaderEnv).exitCode = some 0 ∧
    (ViewportDemo.main badVertexShaderEnv).exitCode = some 0 ∧
    (MainCpp.main badVertexShaderEnv).exitCode = some 0 := by
  decide

/-- C9 (amended): what is fatal at start-up.  A failed window creation makes
each `main` return -1 without entering the render loop, the two viewport
demos printing a diagnostic first; a failed GL loader makes each `main` print
a diagnostic and return -1 without entering the render loop.  A failed shader
compile or program link status is not fatal: once the window and the loader
are up, every `main` enters the render loop and can only return 0, which it
does as soon as the window is closed; the two viewport demos print the
heading and the info log of each failed status, while `main.cpp` with
`loadShader` reads no status and prints nothing. -/
theorem startup_failure_handling (sem : IntSem) (env : Env) :
    (env.windowCreated = false →
      AdvancedViewportDemo.main sem env =
        { exitCode := some (-1), enteredLoop := false,
          trace := [Effect.print "Failed to create GLFW window\n", Effect.glfwTerminate] } ∧
      ViewportDemo.main env =
        { exitCode := some (-1), enteredLoop := false,
          trace := [Effect.print "Failed to create GLFW window\n", Effect.glfwTerminate] } ∧
      (MainCpp.main env).exitCode = some (-1) ∧ (MainCpp.main env).enteredLoop = false) ∧
    (env.windowCreated = true → env.gladLoaded = false →
      AdvancedViewportDemo.main sem env =
        { exitCode := some (-1), enteredLoop := false,
          trace := [Effect.print "Failed to initialize GLAD\n"] } ∧
      ViewportDemo.main env =
        { exitCode := some (-1), enteredLoop := false,
          trace := [Effect.print "Failed to initialize GLAD\n"] } ∧
      MainCpp.main env =
        { exitCode := some (-1), enteredLoop := false,
          trace := [Effect.printErr "gladLoadGL error\n"] }) ∧
    (env.windowCreated = true → env.gladLoaded = true →
      ((AdvancedViewportDemo.main sem env).enteredLoop = true ∧
       (ViewportDemo.main env).enteredLoop = true ∧
       (MainCpp.main env).enteredLoop = true) ∧
      ((∀ c, (AdvancedViewportDemo.main sem env).exitCode = some c → c = 0) ∧
       (∀ c, (ViewportDemo.main env).exitCode = some c → c = 0) ∧
       (∀ c, (MainCpp.main env).exitCode = some c → c = 0)) ∧
      (closesWindow env.frames →
        (AdvancedViewportDemo.main sem env).exitCode = some 0 ∧
        (ViewportDemo.main env).exitCode = some 0) ∧
      (requestsClose env.frames → (MainCpp.main env).exitCode = some 0) ∧
      ((∃ rest, (AdvancedViewportDemo.main sem env).trace = shaderDiagnostics env ++ rest) ∧
       (∃ rest, (ViewportDemo.main env).trace = shaderDiagnostics env ++ rest) ∧
       consoleOutput (MainCpp.main env).trace = []) ∧
      (env.vertexCompiled = false →
        Effect.print ("ERROR::SHADER::VERTEX::COMPILATION_FAILED\n" ++ env.vertexLog ++ "\n")
          ∈ shaderDiagnostics env) ∧
      (env.fragmentCompiled = false →
        Effect.print ("ERROR::SHADER::FRAGMENT::COMPILATION_FAILED\n" ++ env.fragmentLog ++ "\n")
          ∈ shaderDiagnostics env) ∧
      (env.programLinked = false →
        Effect.print ("ERROR::SHADER::PROGRAM::LINKING_FAILED\n" ++ env.linkLog ++ "\n")
          ∈ shaderDiagnostics env)) := by
  refine ⟨?_, ?_, ?_⟩
  · intro hw
    unfold AdvancedViewportDemo.main ViewportDemo.main MainCpp.main
    rw [if_pos hw, if_pos hw, if_pos hw]
    exact ⟨rfl, rfl, rfl, rfl⟩
  · intro hw hg
    have hw' : ¬ env.windowCreated = false := by rw [hw]; decide
    unfold AdvancedViewportDemo.main ViewportDemo.main MainCpp.main
    rw [if_neg hw', if_pos hg, if_neg hw', if_pos hg, if_neg hw', if_pos hg]
    exact ⟨rfl, rfl, rfl⟩
  · intro hw hg
    have hw' : ¬ env.windowCreated = false := by rw [hw]; decide
    have hg' : ¬ env.gladLoaded = false := by rw [hg]; decide
    unfold AdvancedViewportDemo.main ViewportDemo.main MainCpp.main
    rw [if_neg hw', if_neg hg', if_neg hw', if_neg hg', if_neg hw', if_neg hg']
    dsimp only
    refine ⟨⟨rfl, rfl, rfl⟩, ⟨?_, ?_, ?_⟩, ?_, ?_, ⟨?_, ?_, ?_⟩, ?_, ?_, ?_⟩
    · intro c hc
      split at hc
      · exact (Option.some.inj hc).symm
      · cases hc
    · intro c hc
      split at hc
      · exact (Option.some.inj hc).symm
      · cases hc
    · intro c hc
      split at hc
      · exact (Option.some.inj hc).symm
      · cases hc
    · intro hclose
      rw [advanced_renderLoop_exits sem env.frames false initialViewport (Or.inr hclose),
        demo_renderLoop_exits env.frames false (Or.inr hclose)]
      exact ⟨rfl, rfl⟩
    · intro hclose
      rw [mainCpp_renderLoop_exits env.frames false (Or.inr hclose)]
      rfl
    · exact ⟨_, append_assoc_five _ _ _ _ _⟩
    · exact ⟨_, append_assoc_five _ _ _ _ _⟩
    · rw [consoleOutput_append, consoleOutput_append, consoleOutput_append,
        mainCpp_consoleOutput_renderLoop]
      split <;> rfl
    · intro h
      unfold shaderDiagnostics
      rw [if_pos h]
      simp
    · intro h
      unfold shaderDiagnostics
      rw [if_pos h]
      simp
    · intro h
      unfold shaderDiagnostics
      rw [if_pos h]
      simp

theorem startup_failure_handling_witness :
    badVertexShaderEnv.windowCreated = true ∧ badVertexShaderEnv.gladLoaded = true ∧
    badVertexShaderEnv.vertexCompiled = false ∧ closesWindow badVertexShaderEnv.frames ∧
    (AdvancedViewportDemo.main wrapSem badVertexShaderEnv).exitCode = some 0 ∧
    Effect.print ("ERROR::SHADER::VERTEX::COMPILATION_FAILED\n"
        ++ badVertexShaderEnv.vertexLog ++ "\n") ∈ shaderDiagnostics badVertexShaderEnv :=
  have hc : closesWindow badVertexShaderEnv.frames :=
    ⟨{ escapeDown := false, events := [WindowEvent.close] },
      List.mem_singleton.mpr rfl, Or.inr (List.mem_singleton.mpr rfl)⟩
  have h := (startup_failure_handling wrapSem badVertexShaderEnv).2.2 rfl rfl
  ⟨rfl, rfl, rfl, hc, (h.2.2.1 hc).1, h.2.2.2.2.2.1 rfl⟩

/-- C10: grid invariant, with the fields as unbounded integers.  In every
state reached from the initial state `(100, 100, 600, 400)` by a sequence of
key events handled by `key_callback`, the four fields are multiples of 10;
hence `width / 2.0` and `height / 2.0` are whole numbers, and the
NDC-to-screen mapping with integer halving agrees with the mapping with real
halving, for x and for y and for every integer NDC value. -/
theorem grid_invariant (events : List (Int × Int)) :
    initialViewport = { viewport_x := 100, viewport_y := 100,
                        viewport_width := 600, viewport_height := 400 } ∧
    (10 ∣ (handleKeys unboundedSem initialViewport events).viewport_x ∧
     10 ∣ (handleKeys unboundedSem initialViewport events).viewport_y ∧
     10 ∣ (handleKeys unboundedSem initialViewport events).viewport_width ∧
     10 ∣ (handleKeys unboundedSem initialViewport events).viewport_height) ∧
    ((∃ k : Int,
        ((handleKeys unboundedSem initialViewport events).viewport_width : ℚ) / 2 = (k : ℚ)) ∧
     (∃ k : Int,
        ((handleKeys unboundedSem initialViewport events).viewport_height : ℚ) / 2 = (k : ℚ))) ∧
    (∀ n : Int,
      ndcToScreen unboundedSem n
          (handleKeys unboundedSem initialViewport events).viewport_width
          (handleKeys unboundedSem initialViewport events).viewport_x =
        ndcToScreenIntHalf n
          (handleKeys unboundedSem initialViewport events).viewport_width
          (handleKeys unboundedSem initialViewport events).viewport_x ∧
      ndcToScreen unboundedSem n
          (handleKeys unboundedSem initialViewport events).viewport_height
          (handleKeys unboundedSem initialViewport events).viewport_y =
        ndcToScreenIntHalf n
          (handleKeys unboundedSem initialViewport events).viewport_height
          (handleKeys unboundedSem initialViewport events).viewport_y) := by
  have g := handleKeys_onGrid events initialViewport initialViewport_onGrid
  obtain ⟨g1, g2, g3, g4⟩ := g
  have w2 : 2 ∣ (handleKeys unboundedSem initialViewport events).viewport_width := by omega
  have h2 : 2 ∣ (handleKeys unboundedSem initialViewport events).viewport_height := by omega
  exact ⟨rfl, ⟨g1, g2, g3, g4⟩, ⟨half_whole_of_even _ w2, half_whole_of_even _ h2⟩,
    fun n => ⟨ndcToScreen_eq_intHalf_of_even n _ _ w2, ndcToScreen_eq_intHalf_of_even n _ _ h2⟩⟩
